import Mathlib

/-!
Verification of the backend of `twotone_ai_beats_by_data`
(`src/backend/main.py` and `src/backend/core/config.py`).

The Python code is asynchronous glue: route handlers that delegate to
service objects, a WebSocket loop, and an environment-driven settings
module.  The shallow embedding below renders it as pure Lean functions:

* a Python/JSON value is a `Json` tree, and a Python `dict` decoded from
  JSON is a `List (String × Json)` association list;
* a call that may raise is an `Except String α` value (the `String` is
  `str(e)` of the raised exception), supplied as an argument so that every
  outcome of the external service call is quantified over;
* the WebSocket handler is a function from a script of inbound events to
  the list of observable actions it performs plus how it terminated;
* the `lru_cache`-decorated `get_settings` is explicit state passing over
  a cache cell.
-/

/-- A JSON / dynamically-typed Python value (`Any` in the source's type
annotations).  `null` is Python `None`. -/
inductive Json where
  | null : Json
  | bool : Bool → Json
  | num : Int → Json
  | str : String → Json
  | arr : List Json → Json
  | obj : List (String × Json) → Json

/-- Python truthiness (`if x:`) of a decoded value: `None`, `False`, `0`,
`""`, `[]` and `{}` are falsy, everything else truthy. -/
def Json.truthy : Json → Bool
  | Json.null => false
  | Json.bool b => b
  | Json.num n => n != 0
  | Json.str s => s != ""
  | Json.arr xs => !xs.isEmpty
  | Json.obj fs => !fs.isEmpty

/-- `d.get(k)` on a decoded dict: the value at key `k`, or `none` when the
key is absent. -/
def pyGet (d : List (String × Json)) (k : String) : Option Json :=
  (d.find? (fun p => p.1 == k)).map (fun p => p.2)

/-- Python truthiness of an `Optional` value: `None` is falsy, otherwise
the value's own truthiness decides. -/
def pyTruthy : Option Json → Bool
  | none => false
  | some j => j.truthy

/-- `fastapi.HTTPException`: an HTTP status code plus a detail string. -/
structure HTTPException where
  status_code : Nat
  detail : String

/-- The `HealthResponse` pydantic model of `main.py` (lines 100-106).
`status` and `version` carry the declared defaults. -/
structure HealthResponse where
  status : String := "healthy"
  version : String := "1.0.0"
  timestamp : String
  database : Bool
  vector_db : Bool
  llm_service : Bool

/-- The `GET /health` handler `health_check` (`main.py` lines 129-160).
Each dependency probe (`agent_service.health_check`,
`vector_service.health_check`, `llm_service.health_check`) is passed in as
its outcome: `Except.ok b` when the probe returned the boolean `b`, and
`Except.error e` when it raised an exception with `str(e) = e`.  Each
probe sits in its own `try`/`except` block that logs and substitutes
`False` on failure; the handler itself is total (it never raises). -/
def health_check (now : String) (dbProbe vecProbe llmProbe : Except String Bool) :
    HealthResponse :=
  let db_healthy := match dbProbe with
    | Except.ok b => b
    | Except.error _ => false
  let vector_healthy := match vecProbe with
    | Except.ok b => b
    | Except.error _ => false
  let llm_healthy := match llmProbe with
    | Except.ok b => b
    | Except.error _ => false
  { timestamp := now
    database := db_healthy
    vector_db := vector_healthy
    llm_service := llm_healthy }

/-- The `get_current_user` dependency (`main.py` lines 163-173).
`verify` is `verify_token` as a function from the bearer credential to
either the decoded payload dict or the exception it raised.  The handler
reads `payload.get("sub")`; a missing or falsy `sub` raises
`HTTPException(401, "Invalid token")`, which the surrounding
`except Exception` block catches and replaces with
`HTTPException(401, "Authentication failed")`, so every failure path
surfaces as a 401 with detail `"Authentication failed"`. -/
def get_current_user (verify : String → Except String (List (String × Json)))
    (cred : String) : Except HTTPException Json :=
  match verify cred with
  | Except.error _ => Except.error { status_code := 401, detail := "Authentication failed" }
  | Except.ok payload =>
    match pyGet payload "sub" with
    | none => Except.error { status_code := 401, detail := "Authentication failed" }
    | some user_id =>
      if user_id.truthy then Except.ok user_id
      else Except.error { status_code := 401, detail := "Authentication failed" }

/-- The `POST /api/v1/agents/create` handler `create_agent`
(`main.py` lines 256-277), parametrised by the outcome of the delegated
`agent_service.create_agent` call.  On success it wraps the agent in a
message object; on any exception it raises `HTTPException(500, str(e))`. -/
def create_agent (svc : Except String Json) : Except HTTPException Json :=
  match svc with
  | Except.ok agent =>
    Except.ok (Json.obj [("message", Json.str "Agent created successfully"), ("agent", agent)])
  | Except.error e => Except.error { status_code := 500, detail := e }

/-- The `GET /api/v1/agents/` handler `list_agents`
(`main.py` lines 279-290), parametrised by the outcome of
`agent_service.get_user_agents`. -/
def list_agents (svc : Except String Json) : Except HTTPException Json :=
  match svc with
  | Except.ok agents => Except.ok (Json.obj [("agents", agents)])
  | Except.error e => Except.error { status_code := 500, detail := e }

/-- The `POST /api/v1/chat/` handler `chat_with_agent`
(`main.py` lines 292-311), parametrised by the outcome of
`agent_service.chat_with_agent`; on success the service response is
returned as-is. -/
def chat_with_agent (svc : Except String Json) : Except HTTPException Json :=
  match svc with
  | Except.ok response => Except.ok response
  | Except.error e => Except.error { status_code := 500, detail := e }

/-- One observable action of the WebSocket handler, in the order the
handler performs them: closing the socket, registering with the
connection manager, calling `websocket_service.process_message` with the
given arguments, sending a JSON response, or unregistering via
`connection_manager.disconnect`. -/
inductive WsAction where
  | close : Nat → String → WsAction
  | connect : Option Json → WsAction
  | processMessage : String → Option Json → Json → Json → WsAction
  | sendJson : Json → WsAction
  | managerDisconnect : WsAction

/-- How a run of the WebSocket handler ended: still suspended in
`receive_json` (the supplied script ran out), returned during
authentication, caught a `WebSocketDisconnect`, or caught some other
exception. -/
inductive WsTermination where
  | running : WsTermination
  | authFailed : WsTermination
  | disconnected : WsTermination
  | errored : WsTermination

/-- One scripted iteration of the receive loop: `receive_json` raised
`WebSocketDisconnect`, or some exception was raised in the loop body
(modelled at the receive), or a JSON object `d` arrived and the
subsequent `process_message` call had outcome `proc` (`Except.ok` the
returned response, `Except.error` the exception it raised). -/
inductive LoopEvent where
  | recvDisconnect : LoopEvent
  | recvError : String → LoopEvent
  | msg : List (String × Json) → Except String Json → LoopEvent

/-- The `while True` receive loop of `websocket_chat`
(`main.py` lines 198-219), run over a finite script of events.  Each
received object `d` produces a `process_message` call with
`message = data.get("message", "")` and
`conversation_id = data.get("conversation_id")` (Python `None` is
`Json.null`), followed by `send_json` of exactly the value
`process_message` returned.  A `WebSocketDisconnect` is caught and only
logged; any other exception closes the socket with code 4000. -/
def websocket_chat_loop (agent_id : String) (user_id : Option Json) :
    List LoopEvent → List WsAction × WsTermination
  | [] => ([], WsTermination.running)
  | LoopEvent.recvDisconnect :: _ => ([], WsTermination.disconnected)
  | LoopEvent.recvError _ :: _ =>
    ([WsAction.close 4000 "Internal server error"], WsTermination.errored)
  | LoopEvent.msg d (Except.error _) :: _ =>
    ([WsAction.processMessage agent_id user_id
        ((pyGet d "message").getD (Json.str ""))
        ((pyGet d "conversation_id").getD Json.null),
      WsAction.close 4000 "Internal server error"], WsTermination.errored)
  | LoopEvent.msg d (Except.ok response) :: rest =>
    let r := websocket_chat_loop agent_id user_id rest
    (WsAction.processMessage agent_id user_id
        ((pyGet d "message").getD (Json.str ""))
        ((pyGet d "conversation_id").getD Json.null)
      :: WsAction.sendJson response :: r.1, r.2)

/-- The body of `websocket_chat` after authentication
(`main.py` lines 195-221): `connection_manager.connect(websocket,
user_id)`, then the `try`-wrapped receive loop; the `finally` block runs
`connection_manager.disconnect(websocket)` once the loop has terminated
by an exception (while the loop is still suspended in `receive_json`,
the `finally` block has not yet run). -/
def websocket_chat_connected (agent_id : String) (user_id : Option Json)
    (script : List LoopEvent) : List WsAction × WsTermination :=
  let r := websocket_chat_loop agent_id user_id script
  match r.2 with
  | WsTermination.running => (WsAction.connect user_id :: r.1, r.2)
  | _ => (WsAction.connect user_id :: (r.1 ++ [WsAction.managerDisconnect]), r.2)

/-- The WebSocket endpoint `websocket_chat` for `/ws/chat/{agent_id}`
(`main.py` lines 176-221).  `token` is the optional `token` query
parameter and `verify` is `verify_token`.  Python's `if token:` skips
authentication entirely (leaving `user_id = None`) when the token is
absent or the empty string; otherwise a `verify_token` failure closes the
socket with code 4001 and returns, and a success sets
`user_id = payload.get("sub")`. -/
def websocket_chat (agent_id : String) (token : Option String)
    (verify : String → Except String (List (String × Json)))
    (script : List LoopEvent) : List WsAction × WsTermination :=
  match token with
  | none => websocket_chat_connected agent_id none script
  | some t =>
    if t = "" then websocket_chat_connected agent_id none script
    else
      match verify t with
      | Except.error _ =>
        ([WsAction.close 4001 "Authentication failed"], WsTermination.authFailed)
      | Except.ok payload =>
        websocket_chat_connected agent_id (pyGet payload "sub") script

/-- The `AgentCreateRequest` pydantic model (`main.py` lines 108-114):
`name`, `description` and `system_prompt` are required (`Field(...)`),
`model` defaults to `"gpt-4"`, `tools` to the empty list and the
free-form `settings` mapping to the empty dict. -/
structure AgentCreateRequest where
  name : String
  description : String
  system_prompt : String
  model : String
  tools : List String
  settings : List (String × Json)

/-- A raw inbound body for `AgentCreateRequest` before validation: each
declared field is present (`some`) or absent (`none`).  Field values are
taken at their declared types; type coercion is not modelled, only
presence. -/
structure RawAgentCreate where
  name : Option String := none
  description : Option String := none
  system_prompt : Option String := none
  model : Option String := none
  tools : Option (List String) := none
  settings : Option (List (String × Json)) := none

/-- Pydantic validation of `AgentCreateRequest`: reject when a required
field is missing, otherwise fill absent optional fields with their
declared defaults. -/
def AgentCreateRequest.validate (r : RawAgentCreate) :
    Except String AgentCreateRequest :=
  match r.name, r.description, r.system_prompt with
  | some n, some d, some sp =>
    Except.ok { name := n, description := d, system_prompt := sp,
                model := r.model.getD "gpt-4", tools := r.tools.getD [],
                settings := r.settings.getD [] }
  | _, _, _ => Except.error "field required"

/-- The `ChatMessage` pydantic model (`main.py` lines 116-120): `role`
and `content` are required, `timestamp` defaults to `None` and
`metadata` to the empty dict. -/
structure ChatMessage where
  role : String
  content : String
  timestamp : Option String
  metadata : List (String × Json)

/-- A raw inbound body for `ChatMessage` before validation. -/
structure RawChatMessage where
  role : Option String := none
  content : Option String := none
  timestamp : Option String := none
  metadata : Option (List (String × Json)) := none

/-- Pydantic validation of `ChatMessage`. -/
def ChatMessage.validate (r : RawChatMessage) : Except String ChatMessage :=
  match r.role, r.content with
  | some ro, some c =>
    Except.ok { role := ro, content := c, timestamp := r.timestamp,
                metadata := r.metadata.getD [] }
  | _, _ => Except.error "field required"

/-- The `ChatRequest` pydantic model (`main.py` lines 122-126): `message`
and `agent_id` are required, `conversation_id` defaults to `None` and
`stream` to `False`. -/
structure ChatRequest where
  message : String
  agent_id : String
  conversation_id : Option String
  stream : Bool

/-- A raw inbound body for `ChatRequest` before validation. -/
structure RawChatRequest where
  message : Option String := none
  agent_id : Option String := none
  conversation_id : Option String := none
  stream : Option Bool := none

/-- Pydantic validation of `ChatRequest`. -/
def ChatRequest.validate (r : RawChatRequest) : Except String ChatRequest :=
  match r.message, r.agent_id with
  | some m, some a =>
    Except.ok { message := m, agent_id := a,
                conversation_id := r.conversation_id,
                stream := r.stream.getD false }
  | _, _ => Except.error "field required"

/-- The `Settings` pydantic `BaseSettings` model of
`src/backend/core/config.py` (lines 11-211), with every declared field.
`float`-typed fields are modelled as `Rat`. -/
structure Settings where
  APP_NAME : String
  APP_VERSION : String
  DEBUG : Bool
  HOST : String
  PORT : Int
  ALLOWED_ORIGINS : List String
  DATABASE_URL : String
  DATABASE_ECHO : Bool
  REDIS_URL : String
  SECRET_KEY : String
  ALGORITHM : String
  ACCESS_TOKEN_EXPIRE_MINUTES : Int
  OPENAI_API_KEY : String
  OPENAI_ORGANIZATION : Option String
  OPENAI_MODEL : String
  ANTHROPIC_API_KEY : Option String
  GOOGLE_AI_API_KEY : Option String
  PINECONE_API_KEY : Option String
  PINECONE_ENVIRONMENT : Option String
  PINECONE_INDEX_NAME : String
  WEAVIATE_URL : Option String
  WEAVIATE_API_KEY : Option String
  CHROMA_HOST : String
  CHROMA_PORT : Int
  LANGCHAIN_TRACING_V2 : Bool
  LANGCHAIN_ENDPOINT : Option String
  LANGCHAIN_API_KEY : Option String
  LANGCHAIN_PROJECT : Option String
  AWS_ACCESS_KEY_ID : Option String
  AWS_SECRET_ACCESS_KEY : Option String
  AWS_REGION : String
  AWS_S3_BUCKET : Option String
  SMTP_HOST : Option String
  SMTP_PORT : Int
  SMTP_USER : Option String
  SMTP_PASSWORD : Option String
  CELERY_BROKER_URL : String
  CELERY_RESULT_BACKEND : String
  RATE_LIMIT_ENABLED : Bool
  RATE_LIMIT_PER_MINUTE : Int
  SENTRY_DSN : Option String
  MAX_FILE_SIZE : Int
  UPLOAD_DIR : String
  DEFAULT_AGENT_MODEL : String
  MAX_AGENTS_PER_USER : Int
  MAX_CONVERSATIONS_PER_USER : Int
  WEBSOCKET_PING_INTERVAL : Int
  WEBSOCKET_PING_TIMEOUT : Int
  LOG_LEVEL : String
  LOG_FORMAT : String
  WORKER_PROCESSES : Int
  KEEP_ALIVE : Int
  ENABLE_WEB_SEARCH : Bool
  ENABLE_CODE_EXECUTION : Bool
  ENABLE_FILE_OPERATIONS : Bool
  SERPER_API_KEY : Option String
  SERPAPI_API_KEY : Option String
  PLAYWRIGHT_ENABLED : Bool
  HUGGING_FACE_API_KEY : Option String
  COHERE_API_KEY : Option String
  MODEL_TEMPERATURE : Rat
  MODEL_MAX_TOKENS : Int
  MODEL_TOP_P : Rat
  MODEL_FREQUENCY_PENALTY : Rat
  MODEL_PRESENCE_PENALTY : Rat
  EMBEDDING_MODEL : String
  EMBEDDING_CHUNK_SIZE : Int
  EMBEDDING_CHUNK_OVERLAP : Int
  BCRYPT_ROUNDS : Int
  PASSWORD_MIN_LENGTH : Int
  SESSION_COOKIE_NAME : String
  SESSION_COOKIE_HTTPONLY : Bool
  SESSION_COOKIE_SECURE : Bool
  CORS_ALLOW_CREDENTIALS : Bool
  CORS_ALLOW_METHODS : List String
  CORS_ALLOW_HEADERS : List String
  RELOAD_ON_CHANGE : Bool
  AUTO_RELOAD : Bool
  ENABLE_METRICS : Bool
  METRICS_PORT : Int
  HEALTH_CHECK_INTERVAL : Int
  BACKUP_ENABLED : Bool
  BACKUP_INTERVAL : Int
  BACKUP_RETENTION : Int
  FEATURE_MARKETPLACE : Bool
  FEATURE_TEAM_COLLABORATION : Bool
  FEATURE_ADVANCED_ANALYTICS : Bool
  FEATURE_CUSTOM_MODELS : Bool
  HTTP_TIMEOUT : Int
  LLM_TIMEOUT : Int
  WEBSOCKET_TIMEOUT : Int
  QUEUE_MAX_SIZE : Int
  QUEUE_TIMEOUT : Int
  CACHE_TTL : Int
  CACHE_MAX_SIZE : Int

/-- The process environment as seen by `Settings`: for each settable
field, `some v` when its environment variable is set (already interpreted
at the field's declared type; string-to-scalar parsing is not remodelled)
and `none` when absent.  The three CORS list variables stay raw strings
because the `pre=True` validators split them on commas. -/
structure Env where
  APP_NAME : Option String := none
  APP_VERSION : Option String := none
  DEBUG : Option Bool := none
  HOST : Option String := none
  PORT : Option Int := none
  ALLOWED_ORIGINS : Option String := none
  DATABASE_URL : Option String := none
  DATABASE_ECHO : Option Bool := none
  REDIS_URL : Option String := none
  SECRET_KEY : Option String := none
  ALGORITHM : Option String := none
  ACCESS_TOKEN_EXPIRE_MINUTES : Option Int := none
  OPENAI_API_KEY : Option String := none
  OPENAI_ORGANIZATION : Option String := none
  OPENAI_MODEL : Option String := none
  ANTHROPIC_API_KEY : Option String := none
  GOOGLE_AI_API_KEY : Option String := none
  PINECONE_API_KEY : Option String := none
  PINECONE_ENVIRONMENT : Option String := none
  PINECONE_INDEX_NAME : Option String := none
  WEAVIATE_URL : Option String := none
  WEAVIATE_API_KEY : Option String := none
  CHROMA_HOST : Option String := none
  CHROMA_PORT : Option Int := none
  LANGCHAIN_TRACING_V2 : Option Bool := none
  LANGCHAIN_ENDPOINT : Option String := none
  LANGCHAIN_API_KEY : Option String := none
  LANGCHAIN_PROJECT : Option String := none
  AWS_ACCESS_KEY_ID : Option String := none
  AWS_SECRET_ACCESS_KEY : Option String := none
  AWS_REGION : Option String := none
  AWS_S3_BUCKET : Option String := none
  SMTP_HOST : Option String := none
  SMTP_PORT : Option Int := none
  SMTP_USER : Option String := none
  SMTP_PASSWORD : Option String := none
  CELERY_BROKER_URL : Option String := none
  CELERY_RESULT_BACKEND : Option String := none
  RATE_LIMIT_ENABLED : Option Bool := none
  RATE_LIMIT_PER_MINUTE : Option Int := none
  SENTRY_DSN : Option String := none
  MAX_FILE_SIZE : Option Int := none
  UPLOAD_DIR : Option String := none
  DEFAULT_AGENT_MODEL : Option String := none
  MAX_AGENTS_PER_USER : Option Int := none
  MAX_CONVERSATIONS_PER_USER : Option Int := none
  WEBSOCKET_PING_INTERVAL : Option Int := none
  WEBSOCKET_PING_TIMEOUT : Option Int := none
  LOG_LEVEL : Option String := none
  LOG_FORMAT : Option String := none
  WORKER_PROCESSES : Option Int := none
  KEEP_ALIVE : Option Int := none
  ENABLE_WEB_SEARCH : Option Bool := none
  ENABLE_CODE_EXECUTION : Option Bool := none
  ENABLE_FILE_OPERATIONS : Option Bool := none
  SERPER_API_KEY : Option String := none
  SERPAPI_API_KEY : Option String := none
  PLAYWRIGHT_ENABLED : Option Bool := none
  HUGGING_FACE_API_KEY : Option String := none
  COHERE_API_KEY : Option String := none
  MODEL_TEMPERATURE : Option Rat := none
  MODEL_MAX_TOKENS : Option Int := none
  MODEL_TOP_P : Option Rat := none
  MODEL_FREQUENCY_PENALTY : Option Rat := none
  MODEL_PRESENCE_PENALTY : Option Rat := none
  EMBEDDING_MODEL : Option String := none
  EMBEDDING_CHUNK_SIZE : Option Int := none
  EMBEDDING_CHUNK_OVERLAP : Option Int := none
  BCRYPT_ROUNDS : Option Int := none
  PASSWORD_MIN_LENGTH : Option Int := none
  SESSION_COOKIE_NAME : Option String := none
  SESSION_COOKIE_HTTPONLY : Option Bool := none
  SESSION_COOKIE_SECURE : Option Bool := none
  CORS_ALLOW_CREDENTIALS : Option Bool := none
  CORS_ALLOW_METHODS : Option String := none
  CORS_ALLOW_HEADERS : Option String := none
  RELOAD_ON_CHANGE : Option Bool := none
  AUTO_RELOAD : Option Bool := none
  ENABLE_METRICS : Option Bool := none
  METRICS_PORT : Option Int := none
  HEALTH_CHECK_INTERVAL : Option Int := none
  BACKUP_ENABLED : Option Bool := none
  BACKUP_INTERVAL : Option Int := none
  BACKUP_RETENTION : Option Int := none
  FEATURE_MARKETPLACE : Option Bool := none
  FEATURE_TEAM_COLLABORATION : Option Bool := none
  FEATURE_ADVANCED_ANALYTICS : Option Bool := none
  FEATURE_CUSTOM_MODELS : Option Bool := none
  HTTP_TIMEOUT : Option Int := none
  LLM_TIMEOUT : Option Int := none
  WEBSOCKET_TIMEOUT : Option Int := none
  QUEUE_MAX_SIZE : Option Int := none
  QUEUE_TIMEOUT : Option Int := none
  CACHE_TTL : Option Int := none
  CACHE_MAX_SIZE : Option Int := none

/-- The `pre=True` validators `parse_cors_origins` / `parse_cors_methods`
/ `parse_cors_headers` (`config.py` lines 190-206): a string environment
value is split on commas and each item stripped; an unset variable keeps
the declared default list. -/
def parse_env_list (v : Option String) (dflt : List String) : List String :=
  match v with
  | none => dflt
  | some s => (s.splitOn ",").map String.trim

/-- Construction of `Settings()` from the environment (`config.py`
lines 11-211): `DATABASE_URL`, `SECRET_KEY` and `OPENAI_API_KEY` are
required (`Field(...)`) and their absence makes construction raise a
validation error; every other field falls back to its declared default. -/
def mkSettings (env : Env) : Except String Settings :=
  match env.DATABASE_URL, env.SECRET_KEY, env.OPENAI_API_KEY with
  | some dbUrl, some secretKey, some openaiKey =>
    Except.ok
      { APP_NAME := env.APP_NAME.getD "AI Agent Platform"
        APP_VERSION := env.APP_VERSION.getD "1.0.0"
        DEBUG := env.DEBUG.getD false
        HOST := env.HOST.getD "0.0.0.0"
        PORT := env.PORT.getD 8000
        ALLOWED_ORIGINS := parse_env_list env.ALLOWED_ORIGINS
          ["http://localhost:3000", "http://localhost:8000", "https://localhost:3000"]
        DATABASE_URL := dbUrl
        DATABASE_ECHO := env.DATABASE_ECHO.getD false
        REDIS_URL := env.REDIS_URL.getD "redis://localhost:6379"
        SECRET_KEY := secretKey
        ALGORITHM := env.ALGORITHM.getD "HS256"
        ACCESS_TOKEN_EXPIRE_MINUTES := env.ACCESS_TOKEN_EXPIRE_MINUTES.getD 30
        OPENAI_API_KEY := openaiKey
        OPENAI_ORGANIZATION := env.OPENAI_ORGANIZATION
        OPENAI_MODEL := env.OPENAI_MODEL.getD "gpt-4"
        ANTHROPIC_API_KEY := env.ANTHROPIC_API_KEY
        GOOGLE_AI_API_KEY := env.GOOGLE_AI_API_KEY
        PINECONE_API_KEY := env.PINECONE_API_KEY
        PINECONE_ENVIRONMENT := env.PINECONE_ENVIRONMENT
        PINECONE_INDEX_NAME := env.PINECONE_INDEX_NAME.getD "ai-agent-platform"
        WEAVIATE_URL := env.WEAVIATE_URL
        WEAVIATE_API_KEY := env.WEAVIATE_API_KEY
        CHROMA_HOST := env.CHROMA_HOST.getD "localhost"
        CHROMA_PORT := env.CHROMA_PORT.getD 8000
        LANGCHAIN_TRACING_V2 := env.LANGCHAIN_TRACING_V2.getD false
        LANGCHAIN_ENDPOINT := env.LANGCHAIN_ENDPOINT
        LANGCHAIN_API_KEY := env.LANGCHAIN_API_KEY
        LANGCHAIN_PROJECT := env.LANGCHAIN_PROJECT
        AWS_ACCESS_KEY_ID := env.AWS_ACCESS_KEY_ID
        AWS_SECRET_ACCESS_KEY := env.AWS_SECRET_ACCESS_KEY
        AWS_REGION := env.AWS_REGION.getD "us-east-1"
        AWS_S3_BUCKET := env.AWS_S3_BUCKET
        SMTP_HOST := env.SMTP_HOST
        SMTP_PORT := env.SMTP_PORT.getD 587
        SMTP_USER := env.SMTP_USER
        SMTP_PASSWORD := env.SMTP_PASSWORD
        CELERY_BROKER_URL := env.CELERY_BROKER_URL.getD "redis://localhost:6379/0"
        CELERY_RESULT_BACKEND := env.CELERY_RESULT_BACKEND.getD "redis://localhost:6379/0"
        RATE_LIMIT_ENABLED := env.RATE_LIMIT_ENABLED.getD true
        RATE_LIMIT_PER_MINUTE := env.RATE_LIMIT_PER_MINUTE.getD 100
        SENTRY_DSN := env.SENTRY_DSN
        MAX_FILE_SIZE := env.MAX_FILE_SIZE.getD (10 * 1024 * 1024)
        UPLOAD_DIR := env.UPLOAD_DIR.getD "uploads"
        DEFAULT_AGENT_MODEL := env.DEFAULT_AGENT_MODEL.getD "gpt-4"
        MAX_AGENTS_PER_USER := env.MAX_AGENTS_PER_USER.getD 10
        MAX_CONVERSATIONS_PER_USER := env.MAX_CONVERSATIONS_PER_USER.getD 100
        WEBSOCKET_PING_INTERVAL := env.WEBSOCKET_PING_INTERVAL.getD 30
        WEBSOCKET_PING_TIMEOUT := env.WEBSOCKET_PING_TIMEOUT.getD 10
        LOG_LEVEL := env.LOG_LEVEL.getD "INFO"
        LOG_FORMAT := env.LOG_FORMAT.getD
          "%(asctime)s - %(name)s - %(levelname)s - %(message)s"
        WORKER_PROCESSES := env.WORKER_PROCESSES.getD 1
        KEEP_ALIVE := env.KEEP_ALIVE.getD 2
        ENABLE_WEB_SEARCH := env.ENABLE_WEB_SEARCH.getD true
        ENABLE_CODE_EXECUTION := env.ENABLE_CODE_EXECUTION.getD false
        ENABLE_FILE_OPERATIONS := env.ENABLE_FILE_OPERATIONS.getD true
        SERPER_API_KEY := env.SERPER_API_KEY
        SERPAPI_API_KEY := env.SERPAPI_API_KEY
        PLAYWRIGHT_ENABLED := env.PLAYWRIGHT_ENABLED.getD false
        HUGGING_FACE_API_KEY := env.HUGGING_FACE_API_KEY
        COHERE_API_KEY := env.COHERE_API_KEY
        MODEL_TEMPERATURE := env.MODEL_TEMPERATURE.getD (7 / 10)
        MODEL_MAX_TOKENS := env.MODEL_MAX_TOKENS.getD 4000
        MODEL_TOP_P := env.MODEL_TOP_P.getD 1
        MODEL_FREQUENCY_PENALTY := env.MODEL_FREQUENCY_PENALTY.getD 0
        MODEL_PRESENCE_PENALTY := env.MODEL_PRESENCE_PENALTY.getD 0
        EMBEDDING_MODEL := env.EMBEDDING_MODEL.getD "text-embedding-ada-002"
        EMBEDDING_CHUNK_SIZE := env.EMBEDDING_CHUNK_SIZE.getD 1000
        EMBEDDING_CHUNK_OVERLAP := env.EMBEDDING_CHUNK_OVERLAP.getD 200
        BCRYPT_ROUNDS := env.BCRYPT_ROUNDS.getD 12
        PASSWORD_MIN_LENGTH := env.PASSWORD_MIN_LENGTH.getD 8
        SESSION_COOKIE_NAME := env.SESSION_COOKIE_NAME.getD "session"
        SESSION_COOKIE_HTTPONLY := env.SESSION_COOKIE_HTTPONLY.getD true
        SESSION_COOKIE_SECURE := env.SESSION_COOKIE_SECURE.getD true
        CORS_ALLOW_CREDENTIALS := env.CORS_ALLOW_CREDENTIALS.getD true
        CORS_ALLOW_METHODS := parse_env_list env.CORS_ALLOW_METHODS ["*"]
        CORS_ALLOW_HEADERS := parse_env_list env.CORS_ALLOW_HEADERS ["*"]
        RELOAD_ON_CHANGE := env.RELOAD_ON_CHANGE.getD false
        AUTO_RELOAD := env.AUTO_RELOAD.getD false
        ENABLE_METRICS := env.ENABLE_METRICS.getD true
        METRICS_PORT := env.METRICS_PORT.getD 9090
        HEALTH_CHECK_INTERVAL := env.HEALTH_CHECK_INTERVAL.getD 60
        BACKUP_ENABLED := env.BACKUP_ENABLED.getD false
        BACKUP_INTERVAL := env.BACKUP_INTERVAL.getD 86400
        BACKUP_RETENTION := env.BACKUP_RETENTION.getD 7
        FEATURE_MARKETPLACE := env.FEATURE_MARKETPLACE.getD true
        FEATURE_TEAM_COLLABORATION := env.FEATURE_TEAM_COLLABORATION.getD true
        FEATURE_ADVANCED_ANALYTICS := env.FEATURE_ADVANCED_ANALYTICS.getD true
        FEATURE_CUSTOM_MODELS := env.FEATURE_CUSTOM_MODELS.getD false
        HTTP_TIMEOUT := env.HTTP_TIMEOUT.getD 30
        LLM_TIMEOUT := env.LLM_TIMEOUT.getD 120
        WEBSOCKET_TIMEOUT := env.WEBSOCKET_TIMEOUT.getD 300
        QUEUE_MAX_SIZE := env.QUEUE_MAX_SIZE.getD 1000
        QUEUE_TIMEOUT := env.QUEUE_TIMEOUT.getD 60
        CACHE_TTL := env.CACHE_TTL.getD 3600
        CACHE_MAX_SIZE := env.CACHE_MAX_SIZE.getD 1000 }
  | _, _, _ => Except.error "field required"

/-- The memo cell installed by the `@lru_cache()` decorator on
`get_settings` (`config.py` lines 214-217), plus a counter of how many
times the `Settings` constructor has actually run.  `functools.lru_cache`
caches only successful returns; an exception is not cached. -/
structure SettingsCache where
  cached : Option Settings := none
  constructorRuns : Nat := 0

/-- One call to the cached `get_settings` (`config.py` lines 214-217):
on a hit the cached instance is returned unchanged; on a miss the
`Settings` constructor runs (incrementing the run counter) and a
successful result is stored in the cell. -/
def get_settings (env : Env) (st : SettingsCache) :
    Except String Settings × SettingsCache :=
  match st.cached with
  | some s => (Except.ok s, st)
  | none =>
    match mkSettings env with
    | Except.ok s =>
      (Except.ok s, { cached := some s, constructorRuns := st.constructorRuns + 1 })
    | Except.error e =>
      (Except.error e, { st with constructorRuns := st.constructorRuns + 1 })

/-- A sequence of `n` successive calls to `get_settings` within one
process, threading the cache state; returns the list of call results and
the final cache state. -/
def get_settings_calls (env : Env) : Nat → SettingsCache →
    List (Except String Settings) × SettingsCache
  | 0, st => ([], st)
  | n + 1, st =>
    let r := get_settings env st
    let rest := get_settings_calls env n r.2
    (r.1 :: rest.1, rest.2)

theorem websocket_chat_loop_disconnected_no_close (agent_id : String)
    (user_id : Option Json) (script : List LoopEvent)
    (h : (websocket_chat_loop agent_id user_id script).2 = WsTermination.disconnected) :
    ∀ c r, WsAction.close c r ∉ (websocket_chat_loop agent_id user_id script).1 := by
  induction script with
  | nil => simp [websocket_chat_loop] at h
  | cons ev rest ih =>
    cases ev with
    | recvDisconnect => intro c r; simp [websocket_chat_loop]
    | recvError e => simp [websocket_chat_loop] at h
    | msg d proc =>
      cases proc with
      | error e => simp [websocket_chat_loop] at h
      | ok response =>
        have h2 : (websocket_chat_loop agent_id user_id rest).2 =
            WsTermination.disconnected := by
          simpa [websocket_chat_loop] using h
        intro c r hmem
        simp only [websocket_chat_loop, List.mem_cons] at hmem
        rcases hmem with hmem | hmem | hmem
        · exact WsAction.noConfusion hmem
        · exact WsAction.noConfusion hmem
        · exact ih h2 c r hmem

theorem websocket_chat_loop_errored_last_close (agent_id : String)
    (user_id : Option Json) (script : List LoopEvent)
    (h : (websocket_chat_loop agent_id user_id script).2 = WsTermination.errored) :
    ∃ pre, (websocket_chat_loop agent_id user_id script).1 =
      pre ++ [WsAction.close 4000 "Internal server error"] := by
  induction script with
  | nil => simp [websocket_chat_loop] at h
  | cons ev rest ih =>
    cases ev with
    | recvDisconnect => simp [websocket_chat_loop] at h
    | recvError e => exact ⟨[], by simp [websocket_chat_loop]⟩
    | msg d proc =>
      cases proc with
      | error e =>
        exact ⟨[WsAction.processMessage agent_id user_id
                  ((pyGet d "message").getD (Json.str ""))
                  ((pyGet d "conversation_id").getD Json.null)],
               by simp [websocket_chat_loop]⟩
      | ok response =>
        have h2 : (websocket_chat_loop agent_id user_id rest).2 =
            WsTermination.errored := by
          simpa [websocket_chat_loop] using h
        obtain ⟨pre, hpre⟩ := ih h2
        refine ⟨WsAction.processMessage agent_id user_id
                  ((pyGet d "message").getD (Json.str ""))
                  ((pyGet d "conversation_id").getD Json.null)
                :: WsAction.sendJson response :: pre, ?_⟩
        simp [websocket_chat_loop, hpre]

theorem websocket_chat_connected_teardown (agent_id : String)
    (user_id : Option Json) (script : List LoopEvent) :
    ((websocket_chat_connected agent_id user_id script).2 = WsTermination.disconnected →
       (websocket_chat_connected agent_id user_id script).1.getLast? =
         some WsAction.managerDisconnect ∧
       ∀ c r, WsAction.close c r ∉ (websocket_chat_connected agent_id user_id script).1) ∧
    ((websocket_chat_connected agent_id user_id script).2 = WsTermination.errored →
       ∃ pre, (websocket_chat_connected agent_id user_id script).1 =
         pre ++ [WsAction.close 4000 "Internal server error",
                 WsAction.managerDisconnect]) := by
  cases hL : (websocket_chat_loop agent_id user_id script).2 with
  | running =>
    constructor <;> intro hcontra <;>
      simp [websocket_chat_connected, hL] at hcontra
  | authFailed =>
    constructor <;> intro hcontra <;>
      simp [websocket_chat_connected, hL] at hcontra
  | disconnected =>
    have htrace : (websocket_chat_connected agent_id user_id script).1 =
        WsAction.connect user_id ::
          ((websocket_chat_loop agent_id user_id script).1 ++
            [WsAction.managerDisconnect]) := by
      simp [websocket_chat_connected, hL]
    constructor
    · intro _
      constructor
      · rw [htrace]
        rw [show WsAction.connect user_id ::
              ((websocket_chat_loop agent_id user_id script).1 ++
                [WsAction.managerDisconnect]) =
            (WsAction.connect user_id ::
              (websocket_chat_loop agent_id user_id script).1) ++
                [WsAction.managerDisconnect] from rfl]
        exact List.getLast?_concat _
      · intro c r hmem
        rw [htrace] at hmem
        simp only [List.mem_cons, List.mem_append, List.mem_singleton] at hmem
        rcases hmem with hmem | hmem | hmem | hmem
        · exact WsAction.noConfusion hmem
        · exact websocket_chat_loop_disconnected_no_close agent_id user_id script hL c r hmem
        · exact WsAction.noConfusion hmem
        · exact absurd hmem (List.not_mem_nil _)
    · intro hcontra
      simp [websocket_chat_connected, hL] at hcontra
  | errored =>
    constructor
    · intro hcontra
      simp [websocket_chat_connected, hL] at hcontra
    · intro _
      obtain ⟨pre, hpre⟩ :=
        websocket_chat_loop_errored_last_close agent_id user_id script hL
      refine ⟨WsAction.connect user_id :: pre, ?_⟩
      simp [websocket_chat_connected, hL, hpre]

theorem get_settings_calls_cached (env : Env) (s : Settings) (k : Nat)
    (st : SettingsCache) (h : st.cached = some s) :
    get_settings_calls env k st = (List.replicate k (Except.ok s), st) := by
  induction k generalizing st with
  | zero => simp [get_settings_calls]
  | succ n ih =>
    have h1 : get_settings env st = (Except.ok s, st) := by
      simp [get_settings, h]
    simp [get_settings_calls, h1, ih st h, List.replicate_succ]

/-- C1: the `GET /health` handler never raises; for every combination of
outcomes of the three dependency probes, each boolean field of the
returned `HealthResponse` (`database`, `vector_db`, `llm_service`)
equals the boolean returned by the corresponding probe, and is `False`
whenever that probe raised an exception.  (Totality of `health_check`
renders the handler's never-raising: every probe outcome yields a
`HealthResponse`.) -/
theorem health_check_reflects_probes (now : String)
    (dbProbe vecProbe llmProbe : Except String Bool) :
    ((∀ b, dbProbe = Except.ok b →
        (health_check now dbProbe vecProbe llmProbe).database = b) ∧
     (∀ e, dbProbe = Except.error e →
        (health_check now dbProbe vecProbe llmProbe).database = false)) ∧
    ((∀ b, vecProbe = Except.ok b →
        (health_check now dbProbe vecProbe llmProbe).vector_db = b) ∧
     (∀ e, vecProbe = Except.error e →
        (health_check now dbProbe vecProbe llmProbe).vector_db = false)) ∧
    ((∀ b, llmProbe = Except.ok b →
        (health_check now dbProbe vecProbe llmProbe).llm_service = b) ∧
     (∀ e, llmProbe = Except.error e →
        (health_check now dbProbe vecProbe llmProbe).llm_service = false)) := by
  refine ⟨⟨?_, ?_⟩, ⟨?_, ?_⟩, ⟨?_, ?_⟩⟩ <;> intro x hx <;> subst hx <;> rfl

theorem health_check_reflects_probes_witness :
    (Except.ok true : Except String Bool) = Except.ok true ∧
    (Except.error "connection refused" : Except String Bool) =
      Except.error "connection refused" ∧
    (health_check "2024-01-01T00:00:00"
      (Except.ok true) (Except.error "connection refused") (Except.ok false)).database
        = true ∧
    (health_check "2024-01-01T00:00:00"
      (Except.ok true) (Except.error "connection refused") (Except.ok false)).vector_db
        = false ∧
    (health_check "2024-01-01T00:00:00"
      (Except.ok true) (Except.error "connection refused") (Except.ok false)).llm_service
        = false :=
  ⟨rfl, rfl,
   (health_check_reflects_probes "2024-01-01T00:00:00"
     (Except.ok true) (Except.error "connection refused") (Except.ok false)).1.1 true rfl,
   (health_check_reflects_probes "2024-01-01T00:00:00"
     (Except.ok true) (Except.error "connection refused") (Except.ok false)).2.1.2
       "connection refused" rfl,
   (health_check_reflects_probes "2024-01-01T00:00:00"
     (Except.ok true) (Except.error "connection refused") (Except.ok false)).2.2.1 false rfl⟩

/-- C10: on every invocation of the `GET /health` handler the `status`
field of the returned `HealthResponse` is the constant `"healthy"` and
the `version` field is the constant `"1.0.0"`, whatever the three probe
outcomes were. -/
theorem health_check_constant_status_version (now : String)
    (dbProbe vecProbe llmProbe : Except String Bool) :
    (health_check now dbProbe vecProbe llmProbe).status = "healthy" ∧
    (health_check now dbProbe vecProbe llmProbe).version = "1.0.0" :=
  ⟨rfl, rfl⟩

/-- C3: in each of `create_agent`, `list_agents` and `chat_with_agent`,
a delegated service call that raises with `str(e) = e` yields
`HTTPException` status 500 with detail exactly `e`, and a successful
service call yields the handler's success result (the created-agent
message object, the agents object, and the chat response as-is). -/
theorem route_handlers_error_policy (e : String) (agent agents response : Json) :
    create_agent (Except.error e) =
      Except.error { status_code := 500, detail := e } ∧
    list_agents (Except.error e) =
      Except.error { status_code := 500, detail := e } ∧
    chat_with_agent (Except.error e) =
      Except.error { status_code := 500, detail := e } ∧
    create_agent (Except.ok agent) =
      Except.ok (Json.obj [("message", Json.str "Agent created successfully"),
                           ("agent", agent)]) ∧
    list_agents (Except.ok agents) = Except.ok (Json.obj [("agents", agents)]) ∧
    chat_with_agent (Except.ok response) = Except.ok response :=
  ⟨rfl, rfl, rfl, rfl, rfl, rfl⟩

/-- C5: for every request through the `get_current_user` dependency, a
`verify_token` exception or a missing/falsy `"sub"` entry in the decoded
payload produces an `HTTPException` with status code 401 (so the
protected handler body is never reached: the dependency yields no user
id), and otherwise the `"sub"` value itself is returned as the user id. -/
theorem get_current_user_auth
    (verify : String → Except String (List (String × Json))) (cred : String) :
    (∀ e, verify cred = Except.error e →
       get_current_user verify cred =
         Except.error { status_code := 401, detail := "Authentication failed" }) ∧
    (∀ payload, verify cred = Except.ok payload →
       pyTruthy (pyGet payload "sub") = false →
       get_current_user verify cred =
         Except.error { status_code := 401, detail := "Authentication failed" }) ∧
    (∀ payload u, verify cred = Except.ok payload →
       pyGet payload "sub" = some u → u.truthy = true →
       get_current_user verify cred = Except.ok u) := by
  refine ⟨?_, ?_, ?_⟩
  · intro e he
    simp [get_current_user, he]
  · intro payload hp hf
    cases hsub : pyGet payload "sub" with
    | none => simp [get_current_user, hp, hsub]
    | some u =>
      rw [hsub] at hf
      simp only [pyTruthy] at hf
      simp [get_current_user, hp, hsub, hf]
  · intro payload u hp hu ht
    simp [get_current_user, hp, hu, ht]

theorem get_current_user_auth_witness :
    (fun _ : String => (Except.error "bad signature" :
        Except String (List (String × Json)))) "tok" = Except.error "bad signature" ∧
    get_current_user (fun _ => Except.error "bad signature") "tok" =
      Except.error { status_code := 401, detail := "Authentication failed" } ∧
    pyTruthy (pyGet [("sub", Json.str "")] "sub") = false ∧
    get_current_user (fun _ => Except.ok [("sub", Json.str "")]) "tok" =
      Except.error { status_code := 401, detail := "Authentication failed" } ∧
    get_current_user (fun _ => Except.ok [("sub", Json.str "alice")]) "tok" =
      Except.ok (Json.str "alice") :=
  ⟨rfl,
   (get_current_user_auth (fun _ => Except.error "bad signature") "tok").1
     "bad signature" rfl,
   rfl,
   (get_current_user_auth (fun _ => Except.ok [("sub", Json.str "")]) "tok").2.1
     [("sub", Json.str "")] rfl rfl,
   (get_current_user_auth (fun _ => Except.ok [("sub", Json.str "alice")]) "tok").2.2
     [("sub", Json.str "alice")] (Json.str "alice") rfl rfl rfl⟩

/-- C7: pydantic validation of the three DTOs accepts a body exactly when
its required fields are present (`name`/`description`/`system_prompt`
for `AgentCreateRequest`, `message`/`agent_id` for `ChatRequest`,
`role`/`content` for `ChatMessage`), and a body carrying only the
required fields gets the declared defaults for every optional field
(`model = "gpt-4"`, empty `tools` and `settings`, `conversation_id =
None`, `stream = False`, `timestamp = None`, empty `metadata`). -/
theorem dto_required_fields (ra : RawAgentCreate) (rc : RawChatRequest)
    (rm : RawChatMessage) :
    ((AgentCreateRequest.validate ra).isOk = true ↔
       (ra.name.isSome = true ∧ ra.description.isSome = true ∧
        ra.system_prompt.isSome = true)) ∧
    ((ChatRequest.validate rc).isOk = true ↔
       (rc.message.isSome = true ∧ rc.agent_id.isSome = true)) ∧
    ((ChatMessage.validate rm).isOk = true ↔
       (rm.role.isSome = true ∧ rm.content.isSome = true)) ∧
    (∀ n d sp, AgentCreateRequest.validate
        { name := some n, description := some d, system_prompt := some sp } =
      Except.ok { name := n, description := d, system_prompt := sp,
                  model := "gpt-4", tools := [], settings := [] }) ∧
    (∀ m a, ChatRequest.validate { message := some m, agent_id := some a } =
      Except.ok { message := m, agent_id := a, conversation_id := none,
                  stream := false }) ∧
    (∀ ro c, ChatMessage.validate { role := some ro, content := some c } =
      Except.ok { role := ro, content := c, timestamp := none, metadata := [] }) := by
  refine ⟨?_, ?_, ?_, fun n d sp => rfl, fun m a => rfl, fun ro c => rfl⟩
  · obtain ⟨name, desc, sp, mo, tl, st⟩ := ra
    cases name <;> cases desc <;> cases sp <;>
      simp [AgentCreateRequest.validate, Except.isOk, Except.toBool]
  · obtain ⟨m, a, cid, stream⟩ := rc
    cases m <;> cases a <;> simp [ChatRequest.validate, Except.isOk, Except.toBool]
  · obtain ⟨ro, c, ts, md⟩ := rm
    cases ro <;> cases c <;> simp [ChatMessage.validate, Except.isOk, Except.toBool]

theorem dto_required_fields_witness :
    AgentCreateRequest.validate
        { name := some "helper", description := some "a helper agent",
          system_prompt := some "be helpful" } =
      Except.ok { name := "helper", description := "a helper agent",
                  system_prompt := "be helpful", model := "gpt-4",
                  tools := [], settings := [] } ∧
    ChatRequest.validate { message := some "hi", agent_id := some "agent-1" } =
      Except.ok { message := "hi", agent_id := "agent-1",
                  conversation_id := none, stream := false } ∧
    ChatMessage.validate { role := some "user", content := some "hello" } =
      Except.ok { role := "user", content := "hello",
                  timestamp := none, metadata := [] } :=
  ⟨(dto_required_fields {} {} {}).2.2.2.1 "helper" "a helper agent" "be helpful",
   (dto_required_fields {} {} {}).2.2.2.2.1 "hi" "agent-1",
   (dto_required_fields {} {} {}).2.2.2.2.2 "user" "hello"⟩

/-- C2: a WebSocket connection to `/ws/chat/{agent_id}` with a non-empty
`token` query parameter on which `verify_token` raises is closed with
code 4001 and the handler returns: `connection_manager.connect` is never
called and the receive loop is never entered, whatever messages the
client would have sent. -/
theorem websocket_chat_auth_failure (agent_id t : String)
    (verify : String → Except String (List (String × Json)))
    (script : List LoopEvent) (e : String)
    (ht : t ≠ "") (hv : verify t = Except.error e) :
    websocket_chat agent_id (some t) verify script =
      ([WsAction.close 4001 "Authentication failed"], WsTermination.authFailed) ∧
    (∀ u, WsAction.connect u ∉ (websocket_chat agent_id (some t) verify script).1) ∧
    (∀ u m c, WsAction.processMessage agent_id u m c ∉
       (websocket_chat agent_id (some t) verify script).1) := by
  have hmain : websocket_chat agent_id (some t) verify script =
      ([WsAction.close 4001 "Authentication failed"], WsTermination.authFailed) := by
    simp [websocket_chat, ht, hv]
  refine ⟨hmain, ?_, ?_⟩
  · intro u
    rw [hmain]
    simp
  · intro u m c
    rw [hmain]
    simp

theorem websocket_chat_auth_failure_witness :
    ("expired-token" : String) ≠ "" ∧
    (fun _ : String => (Except.error "signature has expired" :
        Except String (List (String × Json)))) "expired-token" =
      Except.error "signature has expired" ∧
    (websocket_chat "agent-1" (some "expired-token")
        (fun _ => Except.error "signature has expired")
        [LoopEvent.msg [] (Except.ok Json.null)] =
      ([WsAction.close 4001 "Authentication failed"], WsTermination.authFailed) ∧
     (∀ u, WsAction.connect u ∉ (websocket_chat "agent-1" (some "expired-token")
        (fun _ => Except.error "signature has expired")
        [LoopEvent.msg [] (Except.ok Json.null)]).1) ∧
     (∀ u m c, WsAction.processMessage "agent-1" u m c ∉
        (websocket_chat "agent-1" (some "expired-token")
          (fun _ => Except.error "signature has expired")
          [LoopEvent.msg [] (Except.ok Json.null)]).1)) :=
  ⟨by decide, rfl,
   websocket_chat_auth_failure "agent-1" "expired-token"
     (fun _ => Except.error "signature has expired")
     [LoopEvent.msg [] (Except.ok Json.null)] "signature has expired"
     (by decide) rfl⟩

/-- C4: in every iteration of the receive loop, after a JSON object `d`
carrying `"message"` and `"conversation_id"` entries arrives, the
handler calls `websocket_service.process_message` with the path
`agent_id`, the authenticated `user_id`, `d`'s `"message"` entry and
`d`'s `"conversation_id"` entry, then sends back over the socket exactly
the value `process_message` returned, and the loop continues. -/
theorem websocket_chat_loop_forwards (agent_id : String) (user_id : Option Json)
    (d : List (String × Json)) (m c response : Json) (rest : List LoopEvent)
    (hm : pyGet d "message" = some m) (hc : pyGet d "conversation_id" = some c) :
    websocket_chat_loop agent_id user_id (LoopEvent.msg d (Except.ok response) :: rest) =
      (WsAction.processMessage agent_id user_id m c
         :: WsAction.sendJson response
         :: (websocket_chat_loop agent_id user_id rest).1,
       (websocket_chat_loop agent_id user_id rest).2) := by
  simp [websocket_chat_loop, hm, hc]

theorem websocket_chat_loop_forwards_witness :
    pyGet [("message", Json.str "hi"), ("conversation_id", Json.str "c-1")]
        "message" = some (Json.str "hi") ∧
    pyGet [("message", Json.str "hi"), ("conversation_id", Json.str "c-1")]
        "conversation_id" = some (Json.str "c-1") ∧
    websocket_chat_loop "agent-1" (some (Json.str "alice"))
        [LoopEvent.msg [("message", Json.str "hi"), ("conversation_id", Json.str "c-1")]
           (Except.ok (Json.str "reply"))] =
      (WsAction.processMessage "agent-1" (some (Json.str "alice"))
           (Json.str "hi") (Json.str "c-1")
         :: WsAction.sendJson (Json.str "reply")
         :: (websocket_chat_loop "agent-1" (some (Json.str "alice")) []).1,
       (websocket_chat_loop "agent-1" (some (Json.str "alice")) []).2) :=
  ⟨rfl, rfl,
   websocket_chat_loop_forwards "agent-1" (some (Json.str "alice"))
     [("message", Json.str "hi"), ("conversation_id", Json.str "c-1")]
     (Json.str "hi") (Json.str "c-1") (Json.str "reply") [] rfl rfl⟩

/-- C6: however a run of `websocket_chat` leaves the receive loop, a
`WebSocketDisconnect` is caught without closing the socket (no `close`
action at all) while any other exception closes it with code 4000, and
in both cases `connection_manager.disconnect(websocket)` from the
`finally` block is the last action before the handler returns. -/
theorem websocket_chat_teardown (agent_id : String) (token : Option String)
    (verify : String → Except String (List (String × Json)))
    (script : List LoopEvent) :
    ((websocket_chat agent_id token verify script).2 = WsTermination.disconnected →
       (websocket_chat agent_id token verify script).1.getLast? =
         some WsAction.managerDisconnect ∧
       ∀ c r, WsAction.close c r ∉ (websocket_chat agent_id token verify script).1) ∧
    ((websocket_chat agent_id token verify script).2 = WsTermination.errored →
       ∃ pre, (websocket_chat agent_id token verify script).1 =
         pre ++ [WsAction.close 4000 "Internal server error",
                 WsAction.managerDisconnect]) := by
  cases token with
  | none =>
    exact websocket_chat_connected_teardown agent_id none script
  | some t =>
    by_cases ht : t = ""
    · have h : websocket_chat agent_id (some t) verify script =
          websocket_chat_connected agent_id none script := by
        simp [websocket_chat, ht]
      rw [h]
      exact websocket_chat_connected_teardown agent_id none script
    · cases hv : verify t with
      | error e =>
        have h : websocket_chat agent_id (some t) verify script =
            ([WsAction.close 4001 "Authentication failed"],
             WsTermination.authFailed) := by
          simp [websocket_chat, ht, hv]
        rw [h]
        constructor <;> intro hcontra <;> simp at hcontra
      | ok payload =>
        have h : websocket_chat agent_id (some t) verify script =
            websocket_chat_connected agent_id (pyGet payload "sub") script := by
          simp [websocket_chat, ht, hv]
        rw [h]
        exact websocket_chat_connected_teardown agent_id (pyGet payload "sub") script

theorem websocket_chat_teardown_witness :
    ((websocket_chat "agent-1" none (fun _ => Except.error "unused")
        [LoopEvent.recvDisconnect]).2 = WsTermination.disconnected ∧
     ((websocket_chat "agent-1" none (fun _ => Except.error "unused")
        [LoopEvent.recvDisconnect]).1.getLast? = some WsAction.managerDisconnect ∧
      ∀ c r, WsAction.close c r ∉ (websocket_chat "agent-1" none
        (fun _ => Except.error "unused") [LoopEvent.recvDisconnect]).1)) ∧
    ((websocket_chat "agent-1" none (fun _ => Except.error "unused")
        [LoopEvent.recvError "boom"]).2 = WsTermination.errored ∧
     ∃ pre, (websocket_chat "agent-1" none (fun _ => Except.error "unused")
        [LoopEvent.recvError "boom"]).1 =
          pre ++ [WsAction.close 4000 "Internal server error",
                  WsAction.managerDisconnect]) :=
  ⟨⟨rfl, (websocket_chat_teardown "agent-1" none (fun _ => Except.error "unused")
           [LoopEvent.recvDisconnect]).1 rfl⟩,
   ⟨rfl, (websocket_chat_teardown "agent-1" none (fun _ => Except.error "unused")
           [LoopEvent.recvError "boom"]).2 rfl⟩⟩

/-- C9: a connection to `/ws/chat/{agent_id}` whose `token` query
parameter is absent or the empty string performs no token verification
at all (the run is the same for every `verify_token` function), still
registers with the connection manager and enters the receive loop, with
`user_id = None`: the endpoint admits fully unauthenticated clients. -/
theorem websocket_chat_unauthenticated (agent_id : String)
    (token : Option String) (script : List LoopEvent)
    (h : token = none ∨ token = some "") :
    (∀ verify, websocket_chat agent_id token verify script =
       websocket_chat_connected agent_id none script) ∧
    (∀ verify, (websocket_chat agent_id token verify script).1.head? =
       some (WsAction.connect none)) := by
  have hconn : ∀ verify : String → Except String (List (String × Json)),
      websocket_chat agent_id token verify script =
        websocket_chat_connected agent_id none script := by
    intro verify
    rcases h with h | h <;> subst h <;> simp [websocket_chat]
  refine ⟨hconn, fun verify => ?_⟩
  rw [hconn verify]
  cases hL : (websocket_chat_loop agent_id none script).2 <;>
    simp [websocket_chat_connected, hL]

theorem websocket_chat_unauthenticated_witness :
    ((none : Option String) = none ∨ (none : Option String) = some "") ∧
    ((∀ verify, websocket_chat "agent-1" none verify
        [LoopEvent.msg [("message", Json.str "hi")] (Except.ok Json.null)] =
      websocket_chat_connected "agent-1" none
        [LoopEvent.msg [("message", Json.str "hi")] (Except.ok Json.null)]) ∧
     (∀ verify, (websocket_chat "agent-1" none verify
        [LoopEvent.msg [("message", Json.str "hi")] (Except.ok Json.null)]).1.head? =
      some (WsAction.connect none))) :=
  ⟨Or.inl rfl,
   websocket_chat_unauthenticated "agent-1" none
     [LoopEvent.msg [("message", Json.str "hi")] (Except.ok Json.null)]
     (Or.inl rfl)⟩

/-- C8: within one process whose environment lets `Settings()` construct
(which the module-level `settings = get_settings()` requires at startup),
any number of successive `get_settings` calls runs the `Settings`
constructor at most once and every call returns the single constructed
instance, so every component reading configuration observes the same
settings value. -/
theorem get_settings_singleton (env : Env) (n : Nat)
    (h : (mkSettings env).isOk = true) :
    (get_settings_calls env n { cached := none, constructorRuns := 0 }).2.constructorRuns ≤ 1 ∧
    ∀ r ∈ (get_settings_calls env n { cached := none, constructorRuns := 0 }).1,
      r = mkSettings env := by
  obtain ⟨s, hs⟩ : ∃ s, mkSettings env = Except.ok s := by
    cases hmk : mkSettings env with
    | ok s => exact ⟨s, rfl⟩
    | error e => rw [hmk] at h; simp [Except.isOk, Except.toBool] at h
  cases n with
  | zero => simp [get_settings_calls]
  | succ k =>
    have h1 : get_settings env { cached := none, constructorRuns := 0 } =
        (Except.ok s, { cached := some s, constructorRuns := 1 }) := by
      simp [get_settings, hs]
    have h2 := get_settings_calls_cached env s k
      { cached := some s, constructorRuns := 1 } rfl
    have hcalls : get_settings_calls env (k + 1) { cached := none, constructorRuns := 0 } =
        (Except.ok s :: List.replicate k (Except.ok s),
         { cached := some s, constructorRuns := 1 }) := by
      simp [get_settings_calls, h1, h2]
    rw [hcalls]
    refine ⟨le_refl 1, ?_⟩
    intro r hr
    rw [hs]
    rcases List.mem_cons.mp hr with hr | hr
    · exact hr
    · exact List.eq_of_mem_replicate hr

theorem get_settings_singleton_witness :
    (mkSettings
        { DATABASE_URL := some "postgresql://localhost/app",
          SECRET_KEY := some "topsecret",
          OPENAI_API_KEY := some "sk-123" }).isOk = true ∧
    ((get_settings_calls
        { DATABASE_URL := some "postgresql://localhost/app",
          SECRET_KEY := some "topsecret",
          OPENAI_API_KEY := some "sk-123" } 2
        { cached := none, constructorRuns := 0 }).2.constructorRuns ≤ 1 ∧
     ∀ r ∈ (get_settings_calls
        { DATABASE_URL := some "postgresql://localhost/app",
          SECRET_KEY := some "topsecret",
          OPENAI_API_KEY := some "sk-123" } 2
        { cached := none, constructorRuns := 0 }).1,
       r = mkSettings
        { DATABASE_URL := some "postgresql://localhost/app",
          SECRET_KEY := some "topsecret",
          OPENAI_API_KEY := some "sk-123" }) :=
  ⟨rfl,
   get_settings_singleton
     { DATABASE_URL := some "postgresql://localhost/app",
       SECRET_KEY := some "topsecret",
       OPENAI_API_KEY := some "sk-123" } 2 rfl⟩
